import Mathlib

/-!
A shallow embedding of `src/AndroidAirplaneIPChanger.py`.

The Python class `AndroidAirplaneIPChanger` is a stateful wrapper around
external subprocess invocations of the `adb` tool.  The embedding models:

* Python string primitives used by the parser of `adb devices -l` output
  (`str.find` with its `-1` convention, slicing with negative indices,
  `str.removeprefix`, `str.splitlines`) over `List Char`;
* the object state (`adb_path`, `current_device`) together with an event
  trace recording every `subprocess.run` invocation and every `time.sleep`,
  so that ordering and frame claims are statable;
* the external world as an oracle `Env`: the result of the n-th subprocess
  invocation, and the behaviour of the standard-library `json.loads`
  (`none` models a raised `json.JSONDecodeError`);
* Python exceptions as an explicit error type: each method returns
  `Except PyError α` together with the successor state.
-/

/-- Result of a `subprocess.run` call: captured stdout and the return code. -/
structure RunResult where
  stdout : String
  returncode : Int
deriving DecidableEq

/-- A JSON value as decoded by Python's `json.loads`.  Objects are decoded
to association lists (Python dicts produced by `json.loads` have unique
keys).  Numbers are modelled as integers; no claim inspects a number. -/
inductive Json where
  | null
  | bool (b : Bool)
  | str (s : String)
  | num (n : Int)
  | arr (elems : List Json)
  | obj (fields : List (String × Json))

mutual

/-- Python `==` on decoded JSON values.  On the string values compared by
`change_ip` this coincides with Python equality; object comparison is
field-order-sensitive here, which is irrelevant to every theorem below
(they only ever compare values of the `query` field, which are strings). -/
def Json.beq : Json → Json → Bool
  | .null, .null => true
  | .bool a, .bool b => a == b
  | .str a, .str b => a == b
  | .num a, .num b => a == b
  | .arr a, .arr b => Json.beqList a b
  | .obj a, .obj b => Json.beqFields a b
  | _, _ => false

/-- Elementwise `Json.beq` on lists. -/
def Json.beqList : List Json → List Json → Bool
  | [], [] => true
  | x :: xs, y :: ys => Json.beq x y && Json.beqList xs ys
  | _, _ => false

/-- Elementwise `Json.beq` on object fields. -/
def Json.beqFields : List (String × Json) → List (String × Json) → Bool
  | [], [] => true
  | (k1, v1) :: xs, (k2, v2) :: ys => k1 == k2 && Json.beq v1 v2 && Json.beqFields xs ys
  | _, _ => false

end

/-- Python dict lookup on the association list of a decoded JSON object. -/
def lookupField : List (String × Json) → String → Option Json
  | [], _ => none
  | (k, v) :: rest, key => if k = key then some v else lookupField rest key

/-- Python exceptions raised by the wrapper or by the libraries it calls. -/
inductive PyError where
  | valueError (msg : String)
  | runtimeError (msg : String)
  | jsonDecodeError
  | keyError (key : String)
  | typeError
deriving DecidableEq

/-- `ValueError("Need init current device!")` — the spec's `NoDeviceSelectedError`. -/
def NoDeviceSelectedError : PyError := .valueError "Need init current device!"

/-- `ValueError("Devices not connected!")` — the spec's `NoDeviceError`. -/
def NoDeviceError : PyError := .valueError "Devices not connected!"

/-- `RuntimeError("Internet on mobile don't work!")` — the spec's `ConnectivityError`. -/
def ConnectivityError : PyError := .runtimeError "Internet on mobile don't work!"

/-- The spec's `MalformedResponseError`: the IP-lookup body is not parseable
JSON (`json.JSONDecodeError`) or lacks the expected field (`KeyError`). -/
def MalformedResponseError (e : PyError) : Prop :=
  e = .jsonDecodeError ∨ ∃ k, e = .keyError k

/-- Python `ip_json['query']`: dict lookup raising `KeyError` when the key is
absent; subscripting a non-dict decoded value with a string raises `TypeError`. -/
def Json.getItem : Json → String → Except PyError Json
  | .obj fields, key =>
    match lookupField fields key with
    | some v => .ok v
    | none => .error (.keyError key)
  | _, _ => .error .typeError

/-! ## Python string primitives (over `List Char`) -/

/-- Index of the first occurrence of `c`, if any (helper for `str.find`). -/
def findIdxFrom (c : Char) : List Char → Option Nat
  | [] => none
  | x :: xs => if x = c then some 0 else (findIdxFrom c xs).map (· + 1)

/-- Python `s.find(c)`: index of the first occurrence of `c`, `-1` if absent. -/
def pyFind (l : List Char) (c : Char) : Int :=
  match findIdxFrom c l with
  | some i => (i : Int)
  | none => -1

/-- Python `s.find(c, start)`: a negative `start` counts from the end (clamped
at `0`); the result is an absolute index, `-1` if absent. -/
def pyFindFrom (l : List Char) (c : Char) (start : Int) : Int :=
  let st : Nat := (if start < 0 then (l.length : Int) + start else start).toNat
  match findIdxFrom c (l.drop st) with
  | some i => ((st + i : Nat) : Int)
  | none => -1

/-- Python slicing `s[a:b]`: negative bounds count from the end (clamped at
`0`), bounds beyond the length are clamped to the length. -/
def pySlice (l : List Char) (a b : Int) : List Char :=
  let aN : Nat := (if a < 0 then (l.length : Int) + a else a).toNat
  let bN : Nat := (if b < 0 then (l.length : Int) + b else b).toNat
  (l.take bN).drop aN

/-- Python `s.removeprefix(p)`. -/
def pyStripPre (s p : List Char) : List Char :=
  if p.isPrefixOf s then s.drop p.length else s

/-- The line boundaries of Python `str.splitlines()`: `\n`, `\r`,
`\v` (0x0B), `\f` (0x0C), the separators 0x1C-0x1E, NEL (0x85),
LINE SEPARATOR (U+2028) and PARAGRAPH SEPARATOR (U+2029). -/
def isLineBoundary (c : Char) : Bool :=
  c = '\n' || c = '\r' || c = '\x0b' || c = '\x0c' || c = '\x1c' || c = '\x1d' ||
  c = '\x1e' || c = '\x85' || c = '\u2028' || c = '\u2029'

/-- First pass of `splitlines`: normalise every line boundary to `\n`
(`sawCR` records that the previous character was `\r`, so the `\n` of a
`\r\n` pair does not yield a second boundary; no other pair merges). -/
def normNlAux : List Char → Bool → List Char
  | [], _ => []
  | c :: rest, sawCR =>
    if c = '\n' then
      if sawCR then normNlAux rest false
      else '\n' :: normNlAux rest false
    else if c = '\r' then '\n' :: normNlAux rest true
    else if isLineBoundary c then '\n' :: normNlAux rest false
    else c :: normNlAux rest false

/-- Worker for `splitlines`: `acc` holds the current line reversed. -/
def splitlinesAux : List Char → List Char → List (List Char)
  | [], acc => if acc.isEmpty then [] else [acc.reverse]
  | '\n' :: rest, acc => acc.reverse :: splitlinesAux rest []
  | c :: rest, acc => splitlinesAux rest (c :: acc)

/-- Python `s.splitlines()`: normalise every boundary of `isLineBoundary`
(only `\r\n` merging into one) to `\n`, then split at `\n`; no trailing
empty line. -/
def splitlines (s : List Char) : List (List Char) :=
  splitlinesAux (normNlAux s false) []

/-! ## The device-list parser (`list_devices`, lines 40–49) -/

/-- A discovered device: `Device(device, id)` from the source — `device` is
the transport descriptor, `id` the serial reported by adb. -/
structure Device where
  device : String
  id : String
deriving DecidableEq

/-- The header line stripped by `list_devices`. -/
def headerChars : List Char := "List of devices attached\n".data

/-- The body of the parsing loop of `list_devices` (lines 43–48):
`id = line[:line.find(' ')]`; skip if empty; `delimeter_pos = line.find(":")`;
`device = line[delimeter_pos+1:line.find(" ", delimeter_pos)]`.
`none` models the `continue`. -/
def parseDeviceLine (line : List Char) : Option Device :=
  let id := pySlice line 0 (pyFind line ' ')
  if id = [] then none
  else
    let delimeter_pos := pyFind line ':'
    let device := pySlice line (delimeter_pos + 1) (pyFindFrom line ' ' delimeter_pos)
    some ⟨String.mk device, String.mk id⟩

/-- The pure parsing part of `list_devices`: strip the header prefix, split
into lines, run the loop body on each line in order, collecting the
appended `Device`s (`filterMap` is the loop with its `continue`). -/
def parse_devices (stdout : List Char) : List Device :=
  (splitlines (pyStripPre stdout headerChars)).filterMap parseDeviceLine

/-! ## Object state, events, and the external world -/

/-- An observable external action: a `subprocess.run` invocation with its
argv, or a `time.sleep` with its duration in seconds. -/
inductive Event where
  | run (argv : List String)
  | sleep (seconds : Nat)
deriving DecidableEq

/-- The object state of `AndroidAirplaneIPChanger`: the stored adb path and
the optional current device. -/
structure Changer where
  adb_path : String
  current_device : Option Device
deriving DecidableEq

/-- A state of an execution: the object state, the number of subprocess
invocations made so far, and the trace of external actions in order. -/
structure St where
  changer : Changer
  calls : Nat
  trace : List Event
deriving DecidableEq

/-- The external world: `run n argv` is the result of the `n`-th
`subprocess.run` invocation (counted from the start of the execution), and
`json_loads` is the behaviour of the standard library's `json.loads`
(`none` models a raised `json.JSONDecodeError`). -/
structure Env where
  run : Nat → List String → RunResult
  json_loads : String → Option Json

/-- One `subprocess.run` invocation: query the world at the current call
count, record the event, bump the counter. -/
def runCmd (env : Env) (argv : List String) (st : St) : RunResult × St :=
  (env.run st.calls argv,
   { st with calls := st.calls + 1, trace := st.trace ++ [.run argv] })

/-- One `time.sleep(seconds)`: recorded in the trace, no subprocess call. -/
def time_sleep (seconds : Nat) (st : St) : St :=
  { st with trace := st.trace ++ [.sleep seconds] }

/-! ### argv builders (the literal command lists of the source) -/

/-- `[adb, "devices", "-l"]` (line 40). -/
def devicesArgv (adb : String) : List String := [adb, "devices", "-l"]

/-- `[adb, '-s', id, 'shell', 'cmd', 'connectivity', 'airplane-mode']` (line 81). -/
def airplaneQueryArgv (adb id : String) : List String :=
  [adb, "-s", id, "shell", "cmd", "connectivity", "airplane-mode"]

/-- `[adb, '-s', id, 'shell', 'cmd', 'connectivity', 'airplane-mode', 'enable']` (lines 95–96). -/
def enableArgv (adb id : String) : List String :=
  [adb, "-s", id, "shell", "cmd", "connectivity", "airplane-mode", "enable"]

/-- `[adb, '-s', id, 'shell', 'cmd', 'connectivity', 'airplane-mode', 'disable']` (lines 107–108). -/
def disableArgv (adb id : String) : List String :=
  [adb, "-s", id, "shell", "cmd", "connectivity", "airplane-mode", "disable"]

/-- `[adb, '-s', id, 'shell', 'ping', '-c', '4', '-w', '10', 'www.google.com']` (lines 121–122). -/
def pingArgv (adb id : String) : List String :=
  [adb, "-s", id, "shell", "ping", "-c", "4", "-w", "10", "www.google.com"]

/-- `[adb, '-s', id, 'shell', 'curl', '-s', 'ip-api.com/json/']` (lines 141–142). -/
def curlArgv (adb id : String) : List String :=
  [adb, "-s", id, "shell", "curl", "-s", "ip-api.com/json/"]

/-- `[adb, '-s', id, 'forward', f'tcp:{port_from}', f'tcp:{port_to}']` (lines 188–189). -/
def forwardArgv (adb id : String) (port_from port_to : Nat) : List String :=
  [adb, "-s", id, "forward", "tcp:" ++ toString port_from, "tcp:" ++ toString port_to]

/-! ## The methods -/

/-- `list_devices` (lines 33–49): run `adb devices -l`, parse its stdout. -/
def list_devices (env : Env) (st : St) : List Device × St :=
  let pr := runCmd env (devicesArgv st.changer.adb_path) st
  (parse_devices pr.1.stdout.data, pr.2)

/-- `set_device` (lines 51–59): set the current device (returns `self`). -/
def set_device (d : Device) (st : St) : St :=
  { st with changer := { st.changer with current_device := some d } }

/-- `get_device` (lines 61–68): return the current device; `self` unchanged. -/
def get_device (st : St) : Option Device × St :=
  (st.changer.current_device, st)

/-- `check_airplane_mode` (lines 70–84): requires a current device; returns
whether the query's stdout equals the literal `'Enable'`. -/
def check_airplane_mode (env : Env) (st : St) : Except PyError Bool × St :=
  match st.changer.current_device with
  | none => (.error NoDeviceSelectedError, st)
  | some d =>
    let pr := runCmd env (airplaneQueryArgv st.changer.adb_path d.id) st
    (.ok (pr.1.stdout == "Enable"), pr.2)

/-- `enable_airplane_mode` (lines 86–96). -/
def enable_airplane_mode (env : Env) (st : St) : Except PyError Unit × St :=
  match st.changer.current_device with
  | none => (.error NoDeviceSelectedError, st)
  | some d =>
    let pr := runCmd env (enableArgv st.changer.adb_path d.id) st
    (.ok (), pr.2)

/-- `disable_airplane_mode` (lines 98–108). -/
def disable_airplane_mode (env : Env) (st : St) : Except PyError Unit × St :=
  match st.changer.current_device with
  | none => (.error NoDeviceSelectedError, st)
  | some d =>
    let pr := runCmd env (disableArgv st.changer.adb_path d.id) st
    (.ok (), pr.2)

/-- `ping` (lines 110–126): requires a current device; true iff the ping
subprocess exits with return code `0`. -/
def ping (env : Env) (st : St) : Except PyError Bool × St :=
  match st.changer.current_device with
  | none => (.error NoDeviceSelectedError, st)
  | some d =>
    let pr := runCmd env (pingArgv st.changer.adb_path d.id) st
    (.ok (pr.1.returncode == 0), pr.2)

/-- `get_current_ip` (lines 128–146): requires a current device; decode the
curl stdout with `json.loads`; return the full record when `location` is
true, otherwise `ip_json['query']`. -/
def get_current_ip (env : Env) (location : Bool) (st : St) : Except PyError Json × St :=
  match st.changer.current_device with
  | none => (.error NoDeviceSelectedError, st)
  | some d =>
    let pr := runCmd env (curlArgv st.changer.adb_path d.id) st
    match env.json_loads pr.1.stdout with
    | none => (.error .jsonDecodeError, pr.2)
    | some ip_json =>
      if location then (.ok ip_json, pr.2)
      else
        match ip_json.getItem "query" with
        | .ok v => (.ok v, pr.2)
        | .error e => (.error e, pr.2)

/-- `set_default_device` (lines 148–158): list devices; raise if the list is
empty; otherwise select `devices[0]`. -/
def set_default_device (env : Env) (st : St) : Except PyError Unit × St :=
  let pr := list_devices env st
  match pr.1 with
  | [] => (.error NoDeviceError, pr.2)
  | d :: _ =>
    (.ok (), { pr.2 with changer := { pr.2.changer with current_device := some d } })

/-- `change_ip` (lines 160–182): ping, record the previous IP, enable
airplane mode, sleep 5, disable it, sleep 10, ping again, fetch the IP
again and compare. -/
def change_ip (env : Env) (st : St) : Except PyError Bool × St :=
  match ping env st with
  | (.error e, st1) => (.error e, st1)
  | (.ok false, st1) => (.error ConnectivityError, st1)
  | (.ok true, st1) =>
    match get_current_ip env false st1 with
    | (.error e, st2) => (.error e, st2)
    | (.ok prev_ip, st2) =>
      match enable_airplane_mode env st2 with
      | (.error e, st3) => (.error e, st3)
      | (.ok _, st3) =>
        let st4 := time_sleep 5 st3
        match disable_airplane_mode env st4 with
        | (.error e, st5) => (.error e, st5)
        | (.ok _, st5) =>
          let st6 := time_sleep 10 st5
          match ping env st6 with
          | (.error e, st7) => (.error e, st7)
          | (.ok false, st7) => (.error ConnectivityError, st7)
          | (.ok true, st7) =>
            match get_current_ip env false st7 with
            | (.error e, st8) => (.error e, st8)
            | (.ok new_ip, st8) =>
              if Json.beq new_ip prev_ip then (.ok false, st8)
              else (.ok true, st8)

/-- `port_forward` (lines 184–189): requires a current device; issues the
adb TCP forward command. -/
def port_forward (env : Env) (port_from port_to : Nat) (st : St) : Except PyError Unit × St :=
  match st.changer.current_device with
  | none => (.error NoDeviceSelectedError, st)
  | some d =>
    let pr := runCmd env (forwardArgv st.changer.adb_path d.id port_from port_to) st
    (.ok (), pr.2)

/-! ## Well-formed `adb devices -l` output

A well-formed device line, as the spec describes it, decomposed into its
parts: `id` is the token before the line's first space (non-empty, so it
contains no space; it also contains no colon, and the first colon of the
line comes later), `mid` is the text between that first space and the
line's first colon (it may contain further spaces but no colon), `dev` is
the transport descriptor between the first colon and the following space
(so it contains no space), and `rest` is the remainder of the line.  No
part contains a line boundary. -/
structure RawLine where
  id : List Char
  mid : List Char
  dev : List Char
  rest : List Char

/-- The concrete text of the line. -/
def RawLine.flat (r : RawLine) : List Char :=
  r.id ++ ' ' :: (r.mid ++ ':' :: (r.dev ++ ' ' :: r.rest))

/-- The `Device` entry the spec promises for the line: identifier = token
before the first whitespace, descriptor = substring between the first colon
and the following whitespace. -/
def RawLine.toDevice (r : RawLine) : Device :=
  ⟨String.mk r.dev, String.mk r.id⟩

/-- Well-formedness of the decomposition (see `RawLine`): the line must in
particular contain no character at which Python `splitlines` would break
it, else it would not be a single device line. -/
def RawLine.WF (r : RawLine) : Prop :=
  r.id ≠ [] ∧ (∀ c ∈ r.id, c ≠ ' ' ∧ c ≠ ':') ∧ (∀ c ∈ r.mid, c ≠ ':') ∧
  (∀ c ∈ r.dev, c ≠ ' ') ∧ (∀ c ∈ r.flat, isLineBoundary c = false)

instance (r : RawLine) : Decidable r.WF := by
  unfold RawLine.WF; infer_instance

/-- A well-formed `adb devices -l` stdout: the header line followed by the
given device lines, each terminated by a newline. -/
def mkDevicesOutput (lines : List (List Char)) : List Char :=
  headerChars ++ (lines.map (fun l => l ++ ['\n'])).flatten

/-! ## Concrete witness data -/

/-- A concrete device. -/
def dev0 : Device := ⟨"usb:1-2", "serial0"⟩

/-- A state with no device selected. -/
def stNone : St := ⟨⟨"adb", none⟩, 0, []⟩

/-- A state with `dev0` selected. -/
def stSel : St := ⟨⟨"adb", some dev0⟩, 0, []⟩

/-- A world whose every subprocess succeeds with empty stdout. -/
def envZero : Env := ⟨fun _ _ => ⟨"", 0⟩, fun _ => none⟩

/-- A world whose every subprocess exits with return code 1. -/
def envPingFail : Env := ⟨fun _ _ => ⟨"", 1⟩, fun _ => none⟩

/-- A world where the airplane-mode query answers `"Enable\n"` (trailing
newline, as a real `adb shell` does). -/
def envTrailingNl : Env := ⟨fun _ _ => ⟨"Enable\n", 0⟩, fun _ => none⟩

/-- A world where the airplane-mode query answers exactly `"Enable"`. -/
def envExactEnable : Env := ⟨fun _ _ => ⟨"Enable", 0⟩, fun _ => none⟩

/-- A world for a successful `change_ip` run: pings succeed, the first curl
body decodes to IP `1.2.3.4` and the second to `5.6.7.8`. -/
def envIpChange : Env :=
  ⟨fun n _ => if n = 1 then ⟨"body1", 0⟩ else if n = 5 then ⟨"body2", 0⟩ else ⟨"", 0⟩,
   fun s =>
     if s = "body1" then some (.obj [("query", .str "1.2.3.4")])
     else if s = "body2" then some (.obj [("query", .str "5.6.7.8")])
     else none⟩

/-- A world where the curl body decodes to a record with `query` and
`country` fields. -/
def envIpLookup : Env :=
  ⟨fun _ _ => ⟨"ipbody", 0⟩,
   fun s =>
     if s = "ipbody" then some (.obj [("query", .str "1.2.3.4"), ("country", .str "X")])
     else none⟩

/-- A world where `adb devices -l` prints only the header line. -/
def envHdrOnly : Env := ⟨fun _ _ => ⟨"List of devices attached\n", 0⟩, fun _ => none⟩

/-- Two well-formed device lines. -/
def rawA : RawLine := ⟨"serialA".data, "device product".data, "p1".data, "model:m".data⟩

/-- See `rawA`. -/
def rawB : RawLine := ⟨"serialB".data, "device".data, "p2".data, "".data⟩

/-- A world where `adb devices -l` prints the header and the two lines
`rawA`, `rawB`. -/
def envTwoDev : Env :=
  ⟨fun _ _ => ⟨String.mk (mkDevicesOutput [rawA.flat, rawB.flat]), 0⟩, fun _ => none⟩

/-! ## Lemmas about the Python string primitives -/

theorem findIdxFrom_cons_self (c : Char) (l : List Char) :
    findIdxFrom c (c :: l) = some 0 := by
  simp [findIdxFrom]

theorem findIdxFrom_eq_none (c : Char) (l : List Char) (h : ∀ x ∈ l, x ≠ c) :
    findIdxFrom c l = none := by
  induction l with
  | nil => rfl
  | cons x xs ih =>
    simp only [findIdxFrom]
    rw [if_neg (h x (List.mem_cons_self x xs)), ih (fun y hy => h y (List.mem_cons_of_mem x hy))]
    rfl

theorem findIdxFrom_append_of_forall_ne (c : Char) (l1 l2 : List Char) (h : ∀ x ∈ l1, x ≠ c) :
    findIdxFrom c (l1 ++ l2) = (findIdxFrom c l2).map (· + l1.length) := by
  induction l1 with
  | nil => simp
  | cons x xs ih =>
    simp only [List.cons_append, findIdxFrom, List.append_eq]
    rw [if_neg (h x (List.mem_cons_self x xs)), ih (fun y hy => h y (List.mem_cons_of_mem x hy))]
    cases findIdxFrom c l2 <;> simp [Nat.add_assoc]

theorem pyStripPre_append (p s : List Char) : pyStripPre (p ++ s) p = s := by
  unfold pyStripPre
  rw [if_pos (by rw [List.isPrefixOf_iff_prefix]; exact List.prefix_append p s)]
  exact List.drop_left p s

theorem splitlinesAux_cons_other (c : Char) (l acc : List Char) (h2 : c ≠ '\n') :
    splitlinesAux (c :: l) acc = splitlinesAux l (c :: acc) := by
  rw [splitlinesAux.eq_def]
  split
  · simp_all
  · simp_all
  · rename_i hn heq
    injection heq with hc hl
    subst hc
    subst hl
    rfl

theorem splitlinesAux_newline (l acc : List Char) :
    splitlinesAux ('\n' :: l) acc = acc.reverse :: splitlinesAux l [] := rfl

theorem splitlinesAux_line (l : List Char) (h : ∀ c ∈ l, c ≠ '\n') :
    ∀ acc rest, splitlinesAux (l ++ '\n' :: rest) acc = (acc.reverse ++ l) :: splitlinesAux rest [] := by
  induction l with
  | nil =>
    intro acc rest
    simp [splitlinesAux_newline]
  | cons x xs ih =>
    intro acc rest
    have hx := h x (List.mem_cons_self x xs)
    rw [List.cons_append, splitlinesAux_cons_other x _ acc hx,
      ih (fun c hc => h c (List.mem_cons_of_mem x hc)) (x :: acc) rest]
    simp

theorem ne_of_not_boundary (c : Char) (b : Char) (hx : isLineBoundary c = false)
    (hb : isLineBoundary b = true) : c ≠ b := by
  intro h
  rw [h, hb] at hx
  simp at hx

theorem normNlAux_line (l : List Char) (h : ∀ c ∈ l, isLineBoundary c = false) (rest : List Char) :
    normNlAux (l ++ '\n' :: rest) false = l ++ '\n' :: normNlAux rest false := by
  induction l with
  | nil => simp [normNlAux]
  | cons x xs ih =>
    have hx := h x (List.mem_cons_self x xs)
    have hn : x ≠ '\n' := ne_of_not_boundary x '\n' hx (by decide)
    have hr : x ≠ '\r' := ne_of_not_boundary x '\r' hx (by decide)
    rw [List.cons_append]
    rw [normNlAux.eq_def]
    simp only [if_neg hn, if_neg hr, if_neg (by simp [hx] : ¬(isLineBoundary x = true))]
    rw [ih (fun c hc => h c (List.mem_cons_of_mem x hc))]
    rfl

theorem normNl_flatten (ls : List (List Char)) (h : ∀ l ∈ ls, ∀ c ∈ l, isLineBoundary c = false) :
    normNlAux ((ls.map (fun l => l ++ ['\n'])).flatten) false
      = (ls.map (fun l => l ++ ['\n'])).flatten := by
  induction ls with
  | nil => rfl
  | cons l ls ih =>
    have hstep : (l ++ ['\n']) ++ (ls.map (fun l => l ++ ['\n'])).flatten
        = l ++ '\n' :: (ls.map (fun l => l ++ ['\n'])).flatten := by simp
    rw [List.map_cons, List.flatten_cons, hstep,
      normNlAux_line l (h l (List.mem_cons_self l ls)) _,
      ih (fun m hm => h m (List.mem_cons_of_mem l hm))]

theorem splitlinesAux_flatten (ls : List (List Char)) (h : ∀ l ∈ ls, ∀ c ∈ l, c ≠ '\n') :
    splitlinesAux ((ls.map (fun l => l ++ ['\n'])).flatten) [] = ls := by
  induction ls with
  | nil => rfl
  | cons l ls ih =>
    have hstep : (l ++ ['\n']) ++ (ls.map (fun l => l ++ ['\n'])).flatten
        = l ++ '\n' :: (ls.map (fun l => l ++ ['\n'])).flatten := by simp
    rw [List.map_cons, List.flatten_cons, hstep,
      splitlinesAux_line l (h l (List.mem_cons_self l ls)) [] _]
    simp only [List.reverse_nil, List.nil_append, List.cons.injEq, true_and]
    exact ih (fun m hm => h m (List.mem_cons_of_mem l hm))

theorem splitlines_flatten (ls : List (List Char)) (h : ∀ l ∈ ls, ∀ c ∈ l, isLineBoundary c = false) :
    splitlines ((ls.map (fun l => l ++ ['\n'])).flatten) = ls := by
  unfold splitlines
  rw [normNl_flatten ls h]
  exact splitlinesAux_flatten ls
    (fun l hl c hc => ne_of_not_boundary c '\n' (h l hl c hc) (by decide))

/-! ## Correctness of the device-line parser on well-formed lines -/

theorem pySlice_zero_natCast (l : List Char) (b : Nat) :
    pySlice l 0 ((b : Nat) : Int) = l.take b := by
  simp only [pySlice]
  rw [if_neg (by decide : ¬((0 : Int) < 0)), if_neg (not_lt.mpr (Int.natCast_nonneg b))]
  simp

theorem pySlice_natCast (l : List Char) (a b : Nat) :
    pySlice l ((a : Nat) : Int) ((b : Nat) : Int) = (l.take b).drop a := by
  simp only [pySlice]
  rw [if_neg (not_lt.mpr (Int.natCast_nonneg a)), if_neg (not_lt.mpr (Int.natCast_nonneg b))]
  simp

theorem pyFindFrom_natCast (l : List Char) (c : Char) (s : Nat) :
    pyFindFrom l c ((s : Nat) : Int)
      = match findIdxFrom c (l.drop s) with
        | some i => ((s + i : Nat) : Int)
        | none => -1 := by
  simp only [pyFindFrom]
  rw [if_neg (not_lt.mpr (Int.natCast_nonneg s))]
  simp

theorem parseDeviceLine_flat (r : RawLine) (hwf : r.WF) :
    parseDeviceLine r.flat = some r.toDevice := by
  obtain ⟨hid, hidc, hmid, hdev, hnl⟩ := hwf
  have hsp : findIdxFrom ' ' r.flat = some r.id.length := by
    unfold RawLine.flat
    rw [findIdxFrom_append_of_forall_ne ' ' r.id _ (fun x hx => (hidc x hx).1),
      findIdxFrom_cons_self]
    simp
  have hpyfind_sp : pyFind r.flat ' ' = ((r.id.length : Nat) : Int) := by
    unfold pyFind
    rw [hsp]
  have htake_id : r.flat.take r.id.length = r.id := by
    have h1 : r.flat = r.id ++ (' ' :: (r.mid ++ ':' :: (r.dev ++ ' ' :: r.rest))) := rfl
    rw [h1]
    exact List.take_left _ _
  have hidslice : pySlice r.flat 0 ((r.id.length : Nat) : Int) = r.id := by
    rw [pySlice_zero_natCast, htake_id]
  have hflatP : r.flat = (r.id ++ ' ' :: r.mid) ++ ':' :: (r.dev ++ ' ' :: r.rest) := by
    simp [RawLine.flat]
  have hPc : ∀ x ∈ r.id ++ ' ' :: r.mid, x ≠ ':' := by
    intro x hx
    rcases List.mem_append.1 hx with hx1 | hx2
    · exact (hidc x hx1).2
    · rcases List.mem_cons.1 hx2 with rfl | hx3
      · decide
      · exact hmid x hx3
  have hcol : findIdxFrom ':' r.flat = some (r.id ++ ' ' :: r.mid).length := by
    rw [hflatP, findIdxFrom_append_of_forall_ne ':' _ _ hPc, findIdxFrom_cons_self]
    simp
  have hpyfind_col : pyFind r.flat ':' = (((r.id ++ ' ' :: r.mid).length : Nat) : Int) := by
    unfold pyFind
    rw [hcol]
  have hdropP : r.flat.drop (r.id ++ ' ' :: r.mid).length = ':' :: (r.dev ++ ' ' :: r.rest) := by
    rw [hflatP]
    exact List.drop_left _ _
  have hfindfrom : pyFindFrom r.flat ' ' (((r.id ++ ' ' :: r.mid).length : Nat) : Int)
      = (((r.id ++ ' ' :: r.mid).length + (r.dev.length + 1) : Nat) : Int) := by
    rw [pyFindFrom_natCast, hdropP,
      show (':' :: (r.dev ++ ' ' :: r.rest)) = [':'] ++ (r.dev ++ ' ' :: r.rest) from rfl,
      findIdxFrom_append_of_forall_ne ' ' [':'] _ (by decide),
      findIdxFrom_append_of_forall_ne ' ' r.dev _ hdev,
      findIdxFrom_cons_self]
    simp only [Option.map_some', List.length_singleton, Nat.zero_add]
  have hflatQ : r.flat = ((r.id ++ ' ' :: r.mid) ++ [':']) ++ (r.dev ++ ' ' :: r.rest) := by
    simp [RawLine.flat]
  have htake_dev : r.flat.take ((r.id ++ ' ' :: r.mid).length + (r.dev.length + 1))
      = ((r.id ++ ' ' :: r.mid) ++ [':']) ++ r.dev := by
    rw [hflatQ,
      show (r.id ++ ' ' :: r.mid).length + (r.dev.length + 1)
        = ((r.id ++ ' ' :: r.mid) ++ [':']).length + r.dev.length by simp; omega,
      List.take_append, List.take_left]
  have hdevslice : pySlice r.flat ((((r.id ++ ' ' :: r.mid).length : Nat) : Int) + 1)
      ((((r.id ++ ' ' :: r.mid).length + (r.dev.length + 1) : Nat) : Int)) = r.dev := by
    rw [show ((((r.id ++ ' ' :: r.mid).length : Nat) : Int) + 1)
        = (((r.id ++ ' ' :: r.mid).length + 1 : Nat) : Int) by omega,
      pySlice_natCast, htake_dev,
      show (r.id ++ ' ' :: r.mid).length + 1 = ((r.id ++ ' ' :: r.mid) ++ [':']).length by
        simp only [List.length_append, List.length_cons, List.length_singleton, List.length_nil]]
    exact List.drop_left _ _
  simp only [parseDeviceLine]
  rw [hpyfind_sp, hidslice, if_neg hid, hpyfind_col, hfindfrom, hdevslice]
  rfl

theorem filterMap_parse_flat (rs : List RawLine) (h : ∀ r ∈ rs, r.WF) :
    (rs.map RawLine.flat).filterMap parseDeviceLine = rs.map RawLine.toDevice := by
  induction rs with
  | nil => rfl
  | cons r rs ih =>
    rw [List.map_cons, List.filterMap_cons, parseDeviceLine_flat r (h r (List.mem_cons_self r rs)),
      List.map_cons, ih (fun x hx => h x (List.mem_cons_of_mem r hx))]

theorem parse_devices_mkOutput (rs : List RawLine) (h : ∀ r ∈ rs, r.WF) :
    parse_devices (mkDevicesOutput (rs.map RawLine.flat)) = rs.map RawLine.toDevice := by
  unfold parse_devices mkDevicesOutput
  rw [pyStripPre_append, splitlines_flatten _ (by
    intro l hl c hc
    rcases List.mem_map.1 hl with ⟨r, hr, rfl⟩
    exact (h r hr).2.2.2.2 c hc)]
  exact filterMap_parse_flat rs h

/-! ## Evaluation lemmas for the methods with a selected device -/

theorem ping_eq (env : Env) (st : St) (d : Device) (hd : st.changer.current_device = some d) :
    ping env st = (.ok ((env.run st.calls (pingArgv st.changer.adb_path d.id)).returncode == 0),
      { st with calls := st.calls + 1,
                trace := st.trace ++ [.run (pingArgv st.changer.adb_path d.id)] }) := by
  simp [ping, runCmd, hd]

theorem check_airplane_mode_eq (env : Env) (st : St) (d : Device)
    (hd : st.changer.current_device = some d) :
    check_airplane_mode env st
      = (.ok ((env.run st.calls (airplaneQueryArgv st.changer.adb_path d.id)).stdout == "Enable"),
        { st with calls := st.calls + 1,
                  trace := st.trace ++ [.run (airplaneQueryArgv st.changer.adb_path d.id)] }) := by
  simp [check_airplane_mode, runCmd, hd]

theorem enable_airplane_mode_eq (env : Env) (st : St) (d : Device)
    (hd : st.changer.current_device = some d) :
    enable_airplane_mode env st
      = (.ok (), { st with calls := st.calls + 1,
                           trace := st.trace ++ [.run (enableArgv st.changer.adb_path d.id)] }) := by
  simp [enable_airplane_mode, runCmd, hd]

theorem disable_airplane_mode_eq (env : Env) (st : St) (d : Device)
    (hd : st.changer.current_device = some d) :
    disable_airplane_mode env st
      = (.ok (), { st with calls := st.calls + 1,
                           trace := st.trace ++ [.run (disableArgv st.changer.adb_path d.id)] }) := by
  simp [disable_airplane_mode, runCmd, hd]

theorem list_devices_eq (env : Env) (st : St) :
    list_devices env st
      = (parse_devices (env.run st.calls (devicesArgv st.changer.adb_path)).stdout.data,
        { st with calls := st.calls + 1,
                  trace := st.trace ++ [.run (devicesArgv st.changer.adb_path)] }) := by
  simp [list_devices, runCmd]

theorem get_current_ip_eq_decode_fail (env : Env) (st : St) (d : Device) (loc : Bool)
    (hd : st.changer.current_device = some d)
    (hj : env.json_loads (env.run st.calls (curlArgv st.changer.adb_path d.id)).stdout = none) :
    get_current_ip env loc st
      = (.error .jsonDecodeError,
        { st with calls := st.calls + 1,
                  trace := st.trace ++ [.run (curlArgv st.changer.adb_path d.id)] }) := by
  simp [get_current_ip, runCmd, hd, hj]

theorem get_current_ip_eq_location (env : Env) (st : St) (d : Device) (j : Json)
    (hd : st.changer.current_device = some d)
    (hj : env.json_loads (env.run st.calls (curlArgv st.changer.adb_path d.id)).stdout = some j) :
    get_current_ip env true st
      = (.ok j,
        { st with calls := st.calls + 1,
                  trace := st.trace ++ [.run (curlArgv st.changer.adb_path d.id)] }) := by
  simp [get_current_ip, runCmd, hd, hj]

theorem get_current_ip_eq_query (env : Env) (st : St) (d : Device) (j v : Json)
    (hd : st.changer.current_device = some d)
    (hj : env.json_loads (env.run st.calls (curlArgv st.changer.adb_path d.id)).stdout = some j)
    (hq : j.getItem "query" = .ok v) :
    get_current_ip env false st
      = (.ok v,
        { st with calls := st.calls + 1,
                  trace := st.trace ++ [.run (curlArgv st.changer.adb_path d.id)] }) := by
  simp [get_current_ip, runCmd, hd, hj, hq]

theorem get_current_ip_eq_query_fail (env : Env) (st : St) (d : Device) (j : Json) (e : PyError)
    (hd : st.changer.current_device = some d)
    (hj : env.json_loads (env.run st.calls (curlArgv st.changer.adb_path d.id)).stdout = some j)
    (hq : j.getItem "query" = .error e) :
    get_current_ip env false st
      = (.error e,
        { st with calls := st.calls + 1,
                  trace := st.trace ++ [.run (curlArgv st.changer.adb_path d.id)] }) := by
  simp [get_current_ip, runCmd, hd, hj, hq]

/-! ## Frame lemmas: no method but the two selection calls touches `changer` -/

theorem list_devices_changer (env : Env) (st : St) :
    (list_devices env st).2.changer = st.changer := by
  simp [list_devices, runCmd]

theorem get_device_changer (st : St) : (get_device st).2.changer = st.changer := rfl

theorem check_airplane_mode_changer (env : Env) (st : St) :
    (check_airplane_mode env st).2.changer = st.changer := by
  cases h : st.changer.current_device <;> simp [check_airplane_mode, runCmd, h]

theorem enable_airplane_mode_changer (env : Env) (st : St) :
    (enable_airplane_mode env st).2.changer = st.changer := by
  cases h : st.changer.current_device <;> simp [enable_airplane_mode, runCmd, h]

theorem disable_airplane_mode_changer (env : Env) (st : St) :
    (disable_airplane_mode env st).2.changer = st.changer := by
  cases h : st.changer.current_device <;> simp [disable_airplane_mode, runCmd, h]

theorem ping_changer (env : Env) (st : St) :
    (ping env st).2.changer = st.changer := by
  cases h : st.changer.current_device <;> simp [ping, runCmd, h]

theorem get_current_ip_changer (env : Env) (loc : Bool) (st : St) :
    (get_current_ip env loc st).2.changer = st.changer := by
  cases h : st.changer.current_device with
  | none => simp [get_current_ip, h]
  | some d =>
    cases hj : env.json_loads (env.run st.calls (curlArgv st.changer.adb_path d.id)).stdout with
    | none => simp [get_current_ip, h, runCmd, hj]
    | some j =>
      cases loc with
      | true => simp [get_current_ip, h, runCmd, hj]
      | false =>
        cases hq : j.getItem "query" with
        | ok v => simp [get_current_ip, h, runCmd, hj, hq]
        | error e => simp [get_current_ip, h, runCmd, hj, hq]

theorem time_sleep_changer (n : Nat) (st : St) : (time_sleep n st).changer = st.changer := rfl

theorem port_forward_changer (env : Env) (a b : Nat) (st : St) :
    (port_forward env a b st).2.changer = st.changer := by
  cases h : st.changer.current_device <;> simp [port_forward, runCmd, h]

theorem change_ip_changer (env : Env) (st : St) :
    (change_ip env st).2.changer = st.changer := by
  simp only [change_ip]
  rcases hp : ping env st with ⟨rp, st1⟩
  have h1 : st1.changer = st.changer := by
    have := ping_changer env st
    rw [hp] at this
    exact this
  rcases rp with e | b
  · simpa using h1
  rcases b with _ | _
  · simpa using h1
  rcases hq : get_current_ip env false st1 with ⟨rq, st2⟩
  have h2 : st2.changer = st.changer := by
    have := get_current_ip_changer env false st1
    rw [hq] at this
    rw [this, h1]
  rcases rq with e | prev
  · simpa [hq] using h2
  rcases he : enable_airplane_mode env st2 with ⟨re, st3⟩
  have h3 : st3.changer = st.changer := by
    have := enable_airplane_mode_changer env st2
    rw [he] at this
    rw [this, h2]
  rcases re with e | u
  · simpa [hq, he] using h3
  rcases hdis : disable_airplane_mode env (time_sleep 5 st3) with ⟨rd, st5⟩
  have h5 : st5.changer = st.changer := by
    have := disable_airplane_mode_changer env (time_sleep 5 st3)
    rw [hdis] at this
    rw [this, time_sleep_changer, h3]
  rcases rd with e | u
  · simpa [hq, he, hdis] using h5
  rcases hp2 : ping env (time_sleep 10 st5) with ⟨rp2, st7⟩
  have h7 : st7.changer = st.changer := by
    have := ping_changer env (time_sleep 10 st5)
    rw [hp2] at this
    rw [this, time_sleep_changer, h5]
  rcases rp2 with e | b2
  · simpa [hq, he, hdis, hp2] using h7
  rcases b2 with _ | _
  · simpa [hq, he, hdis, hp2] using h7
  rcases hq2 : get_current_ip env false st7 with ⟨rq2, st8⟩
  have h8 : st8.changer = st.changer := by
    have := get_current_ip_changer env false st7
    rw [hq2] at this
    rw [this, h7]
  rcases rq2 with e | newip
  · simpa [hq, he, hdis, hp2, hq2] using h8
  by_cases hbeq : Json.beq newip prev = true <;>
    simp [hq, he, hdis, hp2, hq2, hbeq, h8]

/-! ## Claim theorems -/

/-- C1: for every execution of `change_ip` with a selected device in which
both ping checks succeed and both IP lookups succeed, the steps happen in
this exact order — ping, fetch previous IP, enable airplane mode, sleep 5,
disable airplane mode, sleep 10, ping, fetch IP again — and the call
returns true if the final IP differs from the previous one and false if
they are identical. -/
theorem change_ip_happy_path (env : Env) (st : St) (d : Device) (ip1 ip2 : String)
    (f1 f2 : List (String × Json))
    (hd : st.changer.current_device = some d)
    (hping1 : (env.run st.calls (pingArgv st.changer.adb_path d.id)).returncode = 0)
    (hjson1 : env.json_loads (env.run (st.calls + 1) (curlArgv st.changer.adb_path d.id)).stdout
      = some (.obj f1))
    (hq1 : lookupField f1 "query" = some (.str ip1))
    (hping2 : (env.run (st.calls + 4) (pingArgv st.changer.adb_path d.id)).returncode = 0)
    (hjson2 : env.json_loads (env.run (st.calls + 5) (curlArgv st.changer.adb_path d.id)).stdout
      = some (.obj f2))
    (hq2 : lookupField f2 "query" = some (.str ip2)) :
    change_ip env st
      = ((if ip2 = ip1 then .ok false else .ok true),
        { st with calls := st.calls + 6,
                  trace := st.trace ++
                    [.run (pingArgv st.changer.adb_path d.id),
                     .run (curlArgv st.changer.adb_path d.id),
                     .run (enableArgv st.changer.adb_path d.id),
                     .sleep 5,
                     .run (disableArgv st.changer.adb_path d.id),
                     .sleep 10,
                     .run (pingArgv st.changer.adb_path d.id),
                     .run (curlArgv st.changer.adb_path d.id)] }) := by
  simp only [change_ip]
  rw [ping_eq env st d hd]
  simp only [hping1, beq_self_eq_true]
  rw [get_current_ip_eq_query env
      ⟨st.changer, st.calls + 1, st.trace ++ [Event.run (pingArgv st.changer.adb_path d.id)]⟩
      d (.obj f1) (.str ip1) hd hjson1 (by simp [Json.getItem, hq1])]
  simp only [Nat.add_assoc, Nat.reduceAdd, List.append_assoc, List.singleton_append,
    List.cons_append, List.nil_append]
  rw [enable_airplane_mode_eq env
      ⟨st.changer, st.calls + 2,
        st.trace ++ [Event.run (pingArgv st.changer.adb_path d.id),
          Event.run (curlArgv st.changer.adb_path d.id)]⟩ d hd]
  simp only [Nat.add_assoc, Nat.reduceAdd, List.append_assoc, List.singleton_append,
    List.cons_append, List.nil_append, time_sleep]
  rw [disable_airplane_mode_eq env
      ⟨st.changer, st.calls + 3,
        st.trace ++ [Event.run (pingArgv st.changer.adb_path d.id),
          Event.run (curlArgv st.changer.adb_path d.id),
          Event.run (enableArgv st.changer.adb_path d.id), Event.sleep 5]⟩ d hd]
  simp only [Nat.add_assoc, Nat.reduceAdd, List.append_assoc, List.singleton_append,
    List.cons_append, List.nil_append, time_sleep]
  rw [ping_eq env
      ⟨st.changer, st.calls + 4,
        st.trace ++ [Event.run (pingArgv st.changer.adb_path d.id),
          Event.run (curlArgv st.changer.adb_path d.id),
          Event.run (enableArgv st.changer.adb_path d.id), Event.sleep 5,
          Event.run (disableArgv st.changer.adb_path d.id), Event.sleep 10]⟩ d hd]
  simp only [Nat.add_assoc, Nat.reduceAdd, List.append_assoc, List.singleton_append,
    List.cons_append, List.nil_append, hping2, beq_self_eq_true]
  rw [get_current_ip_eq_query env
      ⟨st.changer, st.calls + 5,
        st.trace ++ [Event.run (pingArgv st.changer.adb_path d.id),
          Event.run (curlArgv st.changer.adb_path d.id),
          Event.run (enableArgv st.changer.adb_path d.id), Event.sleep 5,
          Event.run (disableArgv st.changer.adb_path d.id), Event.sleep 10,
          Event.run (pingArgv st.changer.adb_path d.id)]⟩
      d (.obj f2) (.str ip2) hd hjson2 (by simp [Json.getItem, hq2])]
  simp only [Nat.add_assoc, Nat.reduceAdd, List.append_assoc, List.singleton_append,
    List.cons_append, List.nil_append, Json.beq, beq_iff_eq]
  split <;> rfl

/-- Witness for C1: in the world `envIpChange` (pings succeed, IP
`1.2.3.4` then `5.6.7.8`) `change_ip` returns true with the eight events
in order. -/
theorem change_ip_happy_path_witness :
    change_ip envIpChange stSel
      = (.ok true,
        { stSel with calls := stSel.calls + 6,
                     trace := stSel.trace ++
                       [Event.run (pingArgv stSel.changer.adb_path dev0.id),
                        Event.run (curlArgv stSel.changer.adb_path dev0.id),
                        Event.run (enableArgv stSel.changer.adb_path dev0.id),
                        Event.sleep 5,
                        Event.run (disableArgv stSel.changer.adb_path dev0.id),
                        Event.sleep 10,
                        Event.run (pingArgv stSel.changer.adb_path dev0.id),
                        Event.run (curlArgv stSel.changer.adb_path dev0.id)] }) := by
  have h := change_ip_happy_path envIpChange stSel dev0 "1.2.3.4" "5.6.7.8"
    [("query", .str "1.2.3.4")] [("query", .str "5.6.7.8")]
    rfl rfl (by simp [envIpChange, stSel]) rfl rfl (by simp [envIpChange, stSel]) rfl
  simpa using h

/-- C2: when the first ping check fails, `change_ip` raises
`ConnectivityError` (`RuntimeError` in the source) having run only that
single ping subprocess — in particular no airplane-mode enable or disable
command is ever issued, so the device radio state is not mutated. -/
theorem change_ip_first_ping_fails (env : Env) (st : St) (d : Device)
    (hd : st.changer.current_device = some d)
    (hping : (env.run st.calls (pingArgv st.changer.adb_path d.id)).returncode ≠ 0) :
    change_ip env st
      = (.error ConnectivityError,
        { st with calls := st.calls + 1,
                  trace := st.trace ++ [Event.run (pingArgv st.changer.adb_path d.id)] }) ∧
    (∀ ev, (ev = Event.run (enableArgv st.changer.adb_path d.id) ∨
            ev = Event.run (disableArgv st.changer.adb_path d.id)) →
      ev ∈ (change_ip env st).2.trace → ev ∈ st.trace) := by
  have hmain : change_ip env st
      = (.error ConnectivityError,
        { st with calls := st.calls + 1,
                  trace := st.trace ++ [Event.run (pingArgv st.changer.adb_path d.id)] }) := by
    simp only [change_ip]
    rw [ping_eq env st d hd,
      show ((env.run st.calls (pingArgv st.changer.adb_path d.id)).returncode == 0) = false by
        simpa using hping]
  refine ⟨hmain, ?_⟩
  intro ev hev hmem
  rw [hmain] at hmem
  have hmem2 : ev ∈ st.trace ++ [Event.run (pingArgv st.changer.adb_path d.id)] := hmem
  rcases List.mem_append.1 hmem2 with h1 | h2
  · exact h1
  · exfalso
    rcases hev with rfl | rfl <;> simp [pingArgv, enableArgv, disableArgv] at h2

/-- Witness for C2: with every subprocess exiting 1, `change_ip` from
`stSel` raises `ConnectivityError` after the single ping event. -/
theorem change_ip_first_ping_fails_witness :
    stSel.changer.current_device = some dev0 ∧
    change_ip envPingFail stSel
      = (.error ConnectivityError,
        { stSel with calls := stSel.calls + 1,
                     trace := stSel.trace ++ [Event.run (pingArgv stSel.changer.adb_path dev0.id)] }) :=
  ⟨rfl, (change_ip_first_ping_fails envPingFail stSel dev0 rfl (by decide)).1⟩

/-- C3: every device-scoped operation invoked while no device is selected
fails with `NoDeviceSelectedError` and leaves the state untouched — in
particular it performs no subprocess invocation (the trace is unchanged). -/
theorem no_device_selected_all_ops_fail (env : Env) (st : St)
    (h : st.changer.current_device = none) :
    check_airplane_mode env st = (.error NoDeviceSelectedError, st) ∧
    enable_airplane_mode env st = (.error NoDeviceSelectedError, st) ∧
    disable_airplane_mode env st = (.error NoDeviceSelectedError, st) ∧
    ping env st = (.error NoDeviceSelectedError, st) ∧
    (∀ loc, get_current_ip env loc st = (.error NoDeviceSelectedError, st)) ∧
    change_ip env st = (.error NoDeviceSelectedError, st) ∧
    (∀ a b, port_forward env a b st = (.error NoDeviceSelectedError, st)) := by
  refine ⟨?_, ?_, ?_, ?_, ?_, ?_, ?_⟩
  · simp [check_airplane_mode, h]
  · simp [enable_airplane_mode, h]
  · simp [disable_airplane_mode, h]
  · simp [ping, h]
  · intro loc
    simp [get_current_ip, h]
  · simp [change_ip, ping, h]
  · intro a b
    simp [port_forward, h]

/-- Witness for C3: with no device selected, `ping` and `change_ip` fail
with `NoDeviceSelectedError` and the state is unchanged. -/
theorem no_device_selected_all_ops_fail_witness :
    stNone.changer.current_device = none ∧
    ping envZero stNone = (.error NoDeviceSelectedError, stNone) ∧
    change_ip envZero stNone = (.error NoDeviceSelectedError, stNone) := by
  have h := no_device_selected_all_ops_fail envZero stNone rfl
  exact ⟨rfl, h.2.2.2.1, h.2.2.2.2.2.1⟩

/-- C4: `check_airplane_mode` returns `.ok` of the Boolean equality of the
query's raw stdout with the literal `"Enable"`: it is true exactly when the
output is that string, and false on anything else (including
`"Enable\n"`). -/
theorem check_airplane_mode_exact_enable (env : Env) (st : St) (d : Device)
    (hd : st.changer.current_device = some d) :
    check_airplane_mode env st
      = (.ok ((env.run st.calls (airplaneQueryArgv st.changer.adb_path d.id)).stdout == "Enable"),
        { st with calls := st.calls + 1,
                  trace := st.trace ++ [Event.run (airplaneQueryArgv st.changer.adb_path d.id)] }) ∧
    ((check_airplane_mode env st).1 = .ok true ↔
      (env.run st.calls (airplaneQueryArgv st.changer.adb_path d.id)).stdout = "Enable") := by
  refine ⟨check_airplane_mode_eq env st d hd, ?_⟩
  rw [check_airplane_mode_eq env st d hd]
  simp

/-- Witness for C4: an output of `"Enable\n"` (trailing newline) yields
false, an output of exactly `"Enable"` yields true. -/
theorem check_airplane_mode_exact_enable_witness :
    (check_airplane_mode envTrailingNl stSel).1 = .ok false ∧
    (check_airplane_mode envExactEnable stSel).1 = .ok true := by
  constructor
  · have h := (check_airplane_mode_exact_enable envTrailingNl stSel dev0 rfl).1
    rw [h]
    rfl
  · have h := (check_airplane_mode_exact_enable envExactEnable stSel dev0 rfl).1
    rw [h]
    rfl

/-- C5: on well-formed `adb devices -l` output — the header line followed by
N well-formed device lines (see `RawLine`: non-empty identifier before the
first space, transport descriptor between the first colon and the following
space) — `list_devices` returns exactly the N entries in input order, each
`⟨descriptor, identifier⟩`; with zero device lines (header only) it returns
the empty sequence. -/
theorem list_devices_well_formed (env : Env) (st : St) (rs : List RawLine)
    (hwf : ∀ r ∈ rs, r.WF)
    (hout : (env.run st.calls (devicesArgv st.changer.adb_path)).stdout.data
      = mkDevicesOutput (rs.map RawLine.flat)) :
    list_devices env st
      = (rs.map RawLine.toDevice,
        { st with calls := st.calls + 1,
                  trace := st.trace ++ [Event.run (devicesArgv st.changer.adb_path)] }) := by
  rw [list_devices_eq, hout, parse_devices_mkOutput rs hwf]

/-- Witness for C5: two concrete well-formed lines yield the two entries in
order; a header-only output yields the empty sequence. -/
theorem list_devices_well_formed_witness :
    (list_devices envTwoDev stSel).1 = [⟨"p1", "serialA"⟩, ⟨"p2", "serialB"⟩] ∧
    (list_devices envHdrOnly stSel).1 = [] := by
  constructor
  · have h := list_devices_well_formed envTwoDev stSel [rawA, rawB] (by decide) rfl
    rw [h]
    rfl
  · have h := list_devices_well_formed envHdrOnly stSel [] (by simp) (by rfl)
    rw [h]
    rfl

/-- C6: with a selected device, `get_current_ip` decodes the curl body with
`json.loads`; when the decoded value is an object with a `query` field it
returns that field's value for `location = false` and the full record for
`location = true`; a body that fails to decode raises `JSONDecodeError` and
an object without `query` raises `KeyError "query"` — both realizations of
the spec's `MalformedResponseError`. -/
theorem get_current_ip_contract (env : Env) (st : St) (d : Device)
    (hd : st.changer.current_device = some d) :
    (∀ fields v,
      env.json_loads (env.run st.calls (curlArgv st.changer.adb_path d.id)).stdout
          = some (.obj fields) →
      lookupField fields "query" = some v →
      get_current_ip env false st
          = (.ok v, { st with calls := st.calls + 1,
                              trace := st.trace ++ [Event.run (curlArgv st.changer.adb_path d.id)] }) ∧
      get_current_ip env true st
          = (.ok (.obj fields),
            { st with calls := st.calls + 1,
                      trace := st.trace ++ [Event.run (curlArgv st.changer.adb_path d.id)] })) ∧
    (∀ loc,
      env.json_loads (env.run st.calls (curlArgv st.changer.adb_path d.id)).stdout = none →
      get_current_ip env loc st
          = (.error .jsonDecodeError,
            { st with calls := st.calls + 1,
                      trace := st.trace ++ [Event.run (curlArgv st.changer.adb_path d.id)] }) ∧
      MalformedResponseError .jsonDecodeError) ∧
    (∀ fields,
      env.json_loads (env.run st.calls (curlArgv st.changer.adb_path d.id)).stdout
          = some (.obj fields) →
      lookupField fields "query" = none →
      get_current_ip env false st
          = (.error (.keyError "query"),
            { st with calls := st.calls + 1,
                      trace := st.trace ++ [Event.run (curlArgv st.changer.adb_path d.id)] }) ∧
      MalformedResponseError (.keyError "query")) := by
  refine ⟨?_, ?_, ?_⟩
  · intro fields v hj hq
    exact ⟨get_current_ip_eq_query env st d (.obj fields) v hd hj (by simp [Json.getItem, hq]),
      get_current_ip_eq_location env st d (.obj fields) hd hj⟩
  · intro loc hj
    exact ⟨get_current_ip_eq_decode_fail env st d loc hd hj, Or.inl rfl⟩
  · intro fields hj hq
    exact ⟨get_current_ip_eq_query_fail env st d (.obj fields) (.keyError "query") hd hj
        (by simp [Json.getItem, hq]),
      Or.inr ⟨"query", rfl⟩⟩

/-- Witness for C6: on the record with `query = "1.2.3.4"` and a `country`
field, `location = false` returns the bare IP and `location = true` the full
record. -/
theorem get_current_ip_contract_witness :
    (get_current_ip envIpLookup false stSel).1 = .ok (.str "1.2.3.4") ∧
    (get_current_ip envIpLookup true stSel).1
      = .ok (.obj [("query", .str "1.2.3.4"), ("country", .str "X")]) := by
  have h := (get_current_ip_contract envIpLookup stSel dev0 rfl).1
    [("query", .str "1.2.3.4"), ("country", .str "X")] (.str "1.2.3.4") (by simp [envIpLookup]) rfl
  exact ⟨by rw [h.1], by rw [h.2]⟩

/-- C7: `set_default_device` always runs device discovery (the devices
command is appended to the trace); if the parsed device list is empty it
fails with `NoDeviceError`, otherwise it selects the first entry. -/
theorem set_default_device_spec (env : Env) (st : St) :
    (set_default_device env st).2.trace
        = st.trace ++ [Event.run (devicesArgv st.changer.adb_path)] ∧
    (parse_devices (env.run st.calls (devicesArgv st.changer.adb_path)).stdout.data = [] →
      set_default_device env st
        = (.error NoDeviceError,
          { st with calls := st.calls + 1,
                    trace := st.trace ++ [Event.run (devicesArgv st.changer.adb_path)] })) ∧
    (∀ dv tl,
      parse_devices (env.run st.calls (devicesArgv st.changer.adb_path)).stdout.data = dv :: tl →
      set_default_device env st
        = (.ok (),
          { changer := { adb_path := st.changer.adb_path, current_device := some dv },
            calls := st.calls + 1,
            trace := st.trace ++ [Event.run (devicesArgv st.changer.adb_path)] })) := by
  refine ⟨?_, ?_, ?_⟩
  · cases h : parse_devices (env.run st.calls (devicesArgv st.changer.adb_path)).stdout.data with
    | nil => simp [set_default_device, list_devices_eq, h]
    | cons dv tl => simp [set_default_device, list_devices_eq, h]
  · intro h
    simp [set_default_device, list_devices_eq, h]
  · intro dv tl h
    simp [set_default_device, list_devices_eq, h]

/-- Witness for C7: with two discovered devices, `set_default_device`
selects the first one; with a header-only listing it fails with
`NoDeviceError`. -/
theorem set_default_device_spec_witness :
    set_default_device envTwoDev stNone
      = (.ok (), { changer := { adb_path := "adb", current_device := some ⟨"p1", "serialA"⟩ },
                   calls := 1, trace := [Event.run (devicesArgv "adb")] }) ∧
    (set_default_device envHdrOnly stNone).1 = .error NoDeviceError := by
  constructor
  · have h := (set_default_device_spec envTwoDev stNone).2.2 ⟨"p1", "serialA"⟩ [⟨"p2", "serialB"⟩]
      (by decide)
    simpa [stNone] using h
  · have h := (set_default_device_spec envHdrOnly stNone).2.1 (by decide)
    rw [h]

/-- C8: no operation other than the explicit selection calls `set_device`
and `set_default_device` touches the object state: discovery, the pure
accessor, the airplane-mode query and toggles, the ping, both IP-lookup
modes, the whole `change_ip` orchestration and the port forward all leave
`changer` — the stored adb path and the current device — exactly as it
was. -/
theorem ops_preserve_changer (env : Env) (st : St) :
    (list_devices env st).2.changer = st.changer ∧
    (get_device st).2.changer = st.changer ∧
    (check_airplane_mode env st).2.changer = st.changer ∧
    (enable_airplane_mode env st).2.changer = st.changer ∧
    (disable_airplane_mode env st).2.changer = st.changer ∧
    (ping env st).2.changer = st.changer ∧
    (∀ loc, (get_current_ip env loc st).2.changer = st.changer) ∧
    (change_ip env st).2.changer = st.changer ∧
    (∀ a b, (port_forward env a b st).2.changer = st.changer) :=
  ⟨list_devices_changer env st, get_device_changer st, check_airplane_mode_changer env st,
   enable_airplane_mode_changer env st, disable_airplane_mode_changer env st, ping_changer env st,
   fun loc => get_current_ip_changer env loc st, change_ip_changer env st,
   fun a b => port_forward_changer env a b st⟩

/-- C9: when discovery yields an empty device list, `set_default_device`
raises `NoDeviceError` before the assignment, so the previously selected
device stays selected (the whole `changer` is untouched). -/
theorem set_default_device_failure_preserves_device (env : Env) (st : St)
    (h : parse_devices (env.run st.calls (devicesArgv st.changer.adb_path)).stdout.data = []) :
    (set_default_device env st).2.changer.current_device = st.changer.current_device ∧
    (set_default_device env st).1 = .error NoDeviceError := by
  constructor
  · simp [set_default_device, list_devices_eq, h]
  · simp [set_default_device, list_devices_eq, h]

/-- Witness for C9: `dev0` was selected, discovery prints only the header,
the failed call leaves `dev0` selected. -/
theorem set_default_device_failure_preserves_device_witness :
    (set_default_device envHdrOnly stSel).2.changer.current_device = some dev0 ∧
    (set_default_device envHdrOnly stSel).1 = .error NoDeviceError := by
  have h := set_default_device_failure_preserves_device envHdrOnly stSel (by decide)
  exact ⟨h.1, h.2⟩

/-- C10 counterexample: the claim says every non-empty device-list line
without a space yields an entry whose identifier is the line minus its last
character.  On the single-character line `"a"` the code computes
`id = "a"[:-1] = ""` and the `if not id: continue` skips the line, so no
entry at all is produced. -/
theorem single_char_line_is_skipped :
    parseDeviceLine "a".data = none ∧
    parse_devices ("List of devices attached\na".data) = [] ∧
    "a".data ≠ [] ∧ (∀ c ∈ "a".data, c ≠ ' ') := by
  refine ⟨by decide, by decide, by decide, by decide⟩

/-- C10 amended: for every device-list line of length at least two that
contains no space, the parsing loop does not skip the line and produces an
entry whose identifier is the line with its final character removed (a
single-character space-free line is skipped instead, because the identifier
`line[:-1]` is empty). -/
theorem parseDeviceLine_no_space_long_line (l : List Char)
    (hlen : 2 ≤ l.length) (hsp : ∀ c ∈ l, c ≠ ' ') :
    ∃ dv, parseDeviceLine l = some ⟨dv, String.mk l.dropLast⟩ := by
  have hfind : pyFind l ' ' = -1 := by
    unfold pyFind
    rw [findIdxFrom_eq_none ' ' l hsp]
  have hid : pySlice l 0 (-1) = l.dropLast := by
    simp only [pySlice]
    rw [if_neg (by decide : ¬((0 : Int) < 0)), if_pos (by decide : ((-1 : Int) < 0))]
    have hcast : ((l.length : Int) + (-1)).toNat = l.length - 1 := by omega
    rw [hcast]
    simp [List.dropLast_eq_take]
  have hne : l.dropLast ≠ [] := by
    intro hcon
    have hlen2 := congrArg List.length hcon
    rw [List.length_dropLast, List.length_nil] at hlen2
    omega
  refine ⟨String.mk (pySlice l (pyFind l ':' + 1) (pyFindFrom l ' ' (pyFind l ':'))), ?_⟩
  simp only [parseDeviceLine, hfind, hid, if_neg hne]

/-- Witness for the amended C10: the two-character space-free line `"ab"`
yields an entry with identifier `"a"`. -/
theorem parseDeviceLine_no_space_long_line_witness :
    ∃ dv, parseDeviceLine "ab".data = some ⟨dv, String.mk ("ab".data.dropLast)⟩ :=
  parseDeviceLine_no_space_long_line "ab".data (by decide) (by decide)
